import Mathlib

/-!
Verification of the DeepSeek OCR deployment pipeline
(`scripts/deploy-ocr-update.sh`) and of the OCR Lambda helpers
(`src/resources/lambda/processing/start/index.ts`).

The shell pipeline is embedded as pure Lean functions over the sequences of
values the remote services would return: the build-status poll loop consumes a
list of `BuildStatus` observations, the deployment poll loop consumes a stream
of `DeploymentStatus` observations, and the health check consumes the value the
`curl ... | jq -r .status` pipeline would print (or `none` when that command
pipeline fails).  Each loop returns a trace recording its outcome together with
the externally visible events (probe calls, `sleep 10` executions, printed
warnings, exit code).
-/

namespace DeepseekOcr

/-- Build status values returned by `aws codebuild batch-get-builds`
(deploy-ocr-update.sh, line 62). -/
inductive BuildStatus where
  | PENDING
  | IN_PROGRESS
  | SUCCEEDED
  | FAILED
  | FAULT
  | TIMED_OUT
  | STOPPED
  deriving DecidableEq

/-- Terminal-failure test of the build poll loop (deploy-ocr-update.sh,
line 73): `FAILED`, `FAULT`, `TIMED_OUT` or `STOPPED`. -/
def isTerminalFailure (s : BuildStatus) : Bool :=
  s == BuildStatus.FAILED || s == BuildStatus.FAULT ||
  s == BuildStatus.TIMED_OUT || s == BuildStatus.STOPPED

/-- Outcome of the build poll loop.  The source loop (`while true`, lines
61-80) is unbounded; `stillPolling` records that the loop was still running
after consuming every modelled observation. -/
inductive BuildOutcome where
  | succeeded
  | failedWith (s : BuildStatus)
  | stillPolling
  deriving DecidableEq

/-- Trace of the build poll loop (lines 61-80): outcome plus the number of
status probes and of `sleep 10` executions. -/
structure BuildLoopTrace where
  outcome : BuildOutcome
  probes : Nat
  sleeps : Nat
  deriving DecidableEq

/-- Build-status poll loop, deploy-ocr-update.sh lines 61-80.  Each iteration
probes once; on `SUCCEEDED` it breaks (before the `sleep 10`), on a terminal
failure it exits (before the `sleep 10`), otherwise it sleeps 10 seconds and
polls again. -/
def buildLoop : List BuildStatus → BuildLoopTrace
  | [] => ⟨BuildOutcome.stillPolling, 0, 0⟩
  | s :: rest =>
    if s = BuildStatus.SUCCEEDED then
      ⟨BuildOutcome.succeeded, 1, 0⟩
    else if isTerminalFailure s then
      ⟨BuildOutcome.failedWith s, 1, 0⟩
    else
      let t := buildLoop rest
      ⟨t.outcome, t.probes + 1, t.sleeps + 1⟩

/-- ECS rollout state as extracted by `jq -r .RolloutState`
(deploy-ocr-update.sh, line 113). -/
inductive RolloutState where
  | IN_PROGRESS
  | COMPLETED
  | FAILED
  deriving DecidableEq

/-- One `describe-services` observation: `RUNNING_COUNT`, `DESIRED_COUNT` and
`ROLLOUT_STATE` (deploy-ocr-update.sh, lines 111-113). -/
structure DeploymentStatus where
  runningCount : Nat
  desiredCount : Nat
  rolloutState : RolloutState
  deriving DecidableEq

/-- Convergence check of the deployment loop (deploy-ocr-update.sh, line 117):
`ROLLOUT_STATE = COMPLETED` and `RUNNING_COUNT = DESIRED_COUNT` and
`DESIRED_COUNT != 0`. -/
def deploymentConverged (s : DeploymentStatus) : Bool :=
  s.rolloutState == RolloutState.COMPLETED &&
  s.runningCount == s.desiredCount &&
  s.desiredCount != 0

/-- Outcome of the deployment poll loop: convergence (`DEPLOYMENT_COMPLETE`),
`exit 1` on `ROLLOUT_STATE = FAILED`, or the `MAX_WAIT_TIME` bound running
out. -/
inductive DeployOutcome where
  | complete
  | failed
  | timeout
  deriving DecidableEq

/-- Trace of the deployment poll loop (lines 99-127): outcome, number of
`describe-services` probes, number of `sleep 10` executions, how many of those
sleeps happened after the terminal verdict had already been observed, and the
final value of `ELAPSED_TIME`. -/
structure DeployLoopTrace where
  outcome : DeployOutcome
  probes : Nat
  sleeps : Nat
  sleepsAfterVerdict : Nat
  elapsed : Nat
  deriving DecidableEq

/-- Deployment poll loop body, deploy-ocr-update.sh lines 103-127, probing the
stream `probe` (the `k`-th probe is observation `probe k`).  The loop guard is
`DEPLOYMENT_COMPLETE = false && ELAPSED_TIME < MAX_WAIT_TIME` with
`MAX_WAIT_TIME = 600`.  On convergence the script sets
`DEPLOYMENT_COMPLETE=true` but still runs the trailing `sleep 10` and
`ELAPSED_TIME` increment before the guard re-check ends the loop; on
`ROLLOUT_STATE = FAILED` it runs `exit 1` immediately; otherwise it sleeps 10
seconds, adds 10 to `ELAPSED_TIME` and re-checks the guard.  `k` probes and
`k` sleeps have been executed when iteration `k` starts. -/
def deployLoopGo (probe : Nat → DeploymentStatus) (k : Nat) (elapsed : Nat) :
    DeployLoopTrace :=
  if h : elapsed < 600 then
    let s := probe k
    if deploymentConverged s then
      ⟨DeployOutcome.complete, k + 1, k + 1, 1, elapsed + 10⟩
    else if s.rolloutState = RolloutState.FAILED then
      ⟨DeployOutcome.failed, k + 1, k, 0, elapsed⟩
    else
      deployLoopGo probe (k + 1) (elapsed + 10)
  else
    ⟨DeployOutcome.timeout, k, k, 0, elapsed⟩
  termination_by 600 - elapsed
  decreasing_by omega

/-- Deployment poll loop started with `DEPLOYMENT_COMPLETE=false` and
`ELAPSED_TIME=0` (deploy-ocr-update.sh, lines 99-101). -/
def deployLoop (probe : Nat → DeploymentStatus) : DeployLoopTrace :=
  deployLoopGo probe 0 0

/-- Value of the `HEALTH_CHECK` shell variable (deploy-ocr-update.sh,
line 140): the string printed by `curl -s $URL/health | jq -r .status`, or the
fallback `"failed"` when that command pipeline fails (transport error or
unparsable body). -/
def healthCheckValue (probeOutput : Option String) : String :=
  probeOutput.getD "failed"

/-- Externally visible trace of one full pipeline run (deploy-ocr-update.sh).
`buildProbes` counts `batch-get-builds` calls; `ecsUpdateInvoked` records
whether Step 6 (`aws ecs update-service --force-new-deployment`) ran;
`deployProbes` counts `describe-services` calls; `failedBuildStatusPrinted`
and `buildLogRefPrinted` record the diagnostics of the build-failure branch
(lines 74-75); `deployTimeoutWarning` is the line-130 warning;
`healthSettleDelay`, `healthGets` and `healthRequestTimeout` describe the
Step-8 health probe (`sleep 30` then a single `curl -s` with no timeout
option, lines 138-140); `healthWarning` is the line-147 warning. -/
structure PipelineTrace where
  exitCode : Nat
  buildProbes : Nat
  failedBuildStatusPrinted : Option BuildStatus
  buildLogRefPrinted : Bool
  ecsUpdateInvoked : Bool
  deployProbes : Nat
  deployTimeoutWarning : Bool
  healthCheckRan : Bool
  healthSettleDelay : Nat
  healthGets : Nat
  healthUrl : Option String
  healthRequestTimeout : Option Nat
  healthWarning : Bool
  deriving DecidableEq

/-- The pipeline from Step 5 on (deploy-ocr-update.sh, lines 57-163), as a
function of the observations the remote services return: the build-status
observations, the deployment-status stream, and the output of the health
`curl | jq` pipeline (`none` when that pipeline fails).  Returns `none` when
the unbounded build loop is still polling after every modelled build
observation; otherwise returns the run's visible trace.  A build failure
exits 1 before Step 6; `ROLLOUT_STATE = FAILED` exits 1 before Step 8; every
other path runs the health check and exits 0. -/
def runPipeline (buildPolls : List BuildStatus)
    (deployProbe : Nat → DeploymentStatus) (healthOutput : Option String) :
    Option PipelineTrace :=
  let b := buildLoop buildPolls
  match b.outcome with
  | BuildOutcome.stillPolling => none
  | BuildOutcome.failedWith s =>
    some ⟨1, b.probes, some s, true, false, 0, false, false, 0, 0, none, none,
      false⟩
  | BuildOutcome.succeeded =>
    let d := deployLoop deployProbe
    match d.outcome with
    | DeployOutcome.failed =>
      some ⟨1, b.probes, none, false, true, d.probes, false, false, 0, 0,
        none, none, false⟩
    | _ =>
      some ⟨0, b.probes, none, false, true, d.probes,
        d.outcome == DeployOutcome.timeout, true, 30, 1,
        some "http://dev-deepseek-ocr-gpu-lb-1737323494.us-east-1.elb.amazonaws.com/health",
        none, healthCheckValue healthOutput != "healthy"⟩

/-- The environment variables the deployment script reads
(deploy-ocr-update.sh, lines 12-14).  These are the only `${VAR:-default}`
expansions in the script; every other configuration value is a hardcoded
string literal. -/
structure ScriptEnv where
  AWS_REGION : Option String
  AWS_ACCOUNT_ID : Option String
  AWS_PROFILE : Option String
  deriving DecidableEq

/-- Shell `${v:-d}` expansion: the default applies when the variable is unset
or empty. -/
def shellDefault (v : Option String) (d : String) : String :=
  match v with
  | none => d
  | some s => if s = "" then d else s

/-- The script's resolved configuration (deploy-ocr-update.sh, lines 11-18 and
line 135). -/
structure ScriptConfig where
  PROJECT_NAME : String
  AWS_REGION : String
  AWS_ACCOUNT_ID : String
  AWS_PROFILE : String
  S3_BUCKET : String
  S3_KEY : String
  ECS_CLUSTER : String
  ECS_SERVICE : String
  LOAD_BALANCER_URL : String
  deriving DecidableEq

/-- Configuration resolution of deploy-ocr-update.sh (lines 11-18, line 135):
`AWS_REGION`, `AWS_ACCOUNT_ID` and `AWS_PROFILE` are `${VAR:-default}`
expansions; all the other values are hardcoded literals.  Resolution is total:
no check aborts the script on a missing environment variable. -/
def resolveConfig (e : ScriptEnv) : ScriptConfig :=
  ⟨"deepseek-ocr-docker-build",
   shellDefault e.AWS_REGION "us-east-1",
   shellDefault e.AWS_ACCOUNT_ID "098305555551",
   shellDefault e.AWS_PROFILE "miketran+SA",
   "dev-deepseek-ocr-files-bucket",
   "codebuild-source/docker-source.zip",
   "dev-deepseek-ocr-gpu-cluster",
   "dev-deepseek-ocr-gpu-service",
   "http://dev-deepseek-ocr-gpu-lb-1737323494.us-east-1.elb.amazonaws.com"⟩

/-! Embedding of the Lambda OCR helpers,
`src/resources/lambda/processing/start/index.ts`. -/

/-- JavaScript `raw.replace(/\/+$/, '')` (index.ts, lines 37-38): remove every
trailing `/`. -/
def dropTrailingSlashes (s : String) : String :=
  ⟨(s.data.reverse.dropWhile (fun c => c = '/')).reverse⟩

/-- Prefix test modelling JavaScript `s.startsWith(pre)`. -/
def strStartsWith (pre s : String) : Bool :=
  pre.data.isPrefixOf s.data

/-- Function `getBaseUrl` (index.ts, lines 31-39).  The `ALB_URL` environment variable
is modelled as `Option String`; JavaScript `!raw` is true both for an unset
variable and for the empty string.  A value carrying an `http://` or
`https://` scheme keeps it; any other value is prefixed with `http://`;
trailing slashes are stripped in both cases. -/
def getBaseUrl (albUrl : Option String) : Except String String :=
  match albUrl with
  | none => Except.error "ALB_URL environment variable is not set"
  | some raw =>
    if raw = "" then Except.error "ALB_URL environment variable is not set"
    else if strStartsWith "http://" raw || strStartsWith "https://" raw then
      Except.ok (dropTrailingSlashes raw)
    else
      Except.ok ("http://" ++ dropTrailingSlashes raw)

/-- One input file of `processBatch` (index.ts, line 328): buffer (modelled as
a byte list), filename and content type. -/
structure BatchFile where
  buffer : List Nat
  filename : String
  contentType : String
  deriving DecidableEq

/-- One part appended to the outbound `FormData`: either a file part
(`formData.append(field, buffer, {filename, contentType})`) or a text part
(`formData.append(field, value)`). -/
inductive FormPart where
  | file (field : String) (buffer : List Nat) (filename : String)
      (contentType : String)
  | text (field : String) (value : String)
  deriving DecidableEq

/-- The field name a form part is appended under. -/
def FormPart.fieldName : FormPart → String
  | FormPart.file f _ _ _ => f
  | FormPart.text f _ => f

/-- The outbound batch request `processBatch` hands to `axios.post`: target
URL and form parts in append order. -/
structure BatchRequest where
  url : String
  parts : List FormPart
  deriving DecidableEq

/-- Containment of `tag` as a contiguous substring of `l`, modelling JavaScript
`s.includes(tag)`. -/
def hasSubstring (tag : List Char) : List Char → Bool
  | [] => tag.isEmpty
  | c :: rest => tag.isPrefixOf (c :: rest) || hasSubstring tag rest

/-- JavaScript `prompt.includes('<image>')` (index.ts, line 343). -/
def promptHasImageTag (s : String) : Bool :=
  hasSubstring "<image>".data s.data

/-- Model of `if (x !== undefined) formData.append(field, x.toString())`
(index.ts, lines 369-379): the text part appended for an optional sampling parameter. -/
def textPartOfOption (field : String) : Option String → List FormPart
  | some v => [FormPart.text field v]
  | none => []

/-- Function `processBatch` up to the `axios.post` call (index.ts, lines 327-392),
returning the outbound request it would post.  Sampling parameters are
modelled by their rendered decimal strings (`temperature.toString()` etc.).
The empty-files check (line 335) runs before `getBaseUrl()` reads the
configuration (line 339); file parts are appended first, each under the field
name `files` (line 360), then the `prompt` part and the optional sampling
parts. -/
def processBatch (files : List BatchFile) (albUrl : Option String)
    (prompt : String) (grounded : Bool)
    (temperature top_p max_tokens : Option String) :
    Except String BatchRequest :=
  if files.length = 0 then
    Except.error "No files provided for batch processing"
  else
    match getBaseUrl albUrl with
    | Except.error e => Except.error e
    | Except.ok baseUrl =>
      let p0 := if promptHasImageTag prompt then prompt else "<image>" ++ prompt
      let normalizedPrompt := if grounded then "<|grounding|>" ++ p0 else p0
      let fileParts := files.map fun f =>
        FormPart.file "files" f.buffer f.filename f.contentType
      let paramParts :=
        textPartOfOption "temperature" temperature ++
        textPartOfOption "top_p" top_p ++
        textPartOfOption "max_tokens" max_tokens
      Except.ok ⟨baseUrl ++ "/ocr/batch",
        fileParts ++ [FormPart.text "prompt" normalizedPrompt] ++ paramParts⟩

/-- The spec's reading of `replace(/\/+$/, '')`: keep the first
`length - (number of trailing slashes)` characters of the value. -/
def specStripTrailing (s : String) : String :=
  ⟨s.data.take
    (s.data.length - (s.data.reverse.takeWhile (fun c => c = '/')).length)⟩

/-! Helper lemmas. -/

theorem buildLoop_succeeded_at (pre : List BuildStatus)
    (rest : List BuildStatus)
    (hpre : ∀ t ∈ pre, t ≠ BuildStatus.SUCCEEDED ∧ isTerminalFailure t = false) :
    buildLoop (pre ++ BuildStatus.SUCCEEDED :: rest) =
      ⟨BuildOutcome.succeeded, pre.length + 1, pre.length⟩ := by
  induction pre with
  | nil => simp [buildLoop]
  | cons t ts ih =>
    have ht := hpre t (by simp)
    have hrec := ih (fun u hu => hpre u (by simp [hu]))
    simp [buildLoop, ht.1, ht.2, hrec]

theorem buildLoop_failure_at (pre : List BuildStatus) (s : BuildStatus)
    (rest : List BuildStatus)
    (hpre : ∀ t ∈ pre, t ≠ BuildStatus.SUCCEEDED ∧ isTerminalFailure t = false)
    (hs : isTerminalFailure s = true) :
    buildLoop (pre ++ s :: rest) =
      ⟨BuildOutcome.failedWith s, pre.length + 1, pre.length⟩ := by
  induction pre with
  | nil =>
    have hns : s ≠ BuildStatus.SUCCEEDED := by
      intro h
      subst h
      simp [isTerminalFailure] at hs
    simp [buildLoop, hns, hs]
  | cons t ts ih =>
    have ht := hpre t (by simp)
    have hrec := ih (fun u hu => hpre u (by simp [hu]))
    simp [buildLoop, ht.1, ht.2, hrec]

theorem deployLoopGo_skip (probe : Nat → DeploymentStatus) :
    ∀ k, k ≤ 60 →
      (∀ j, j < k → deploymentConverged (probe j) = false ∧
          (probe j).rolloutState ≠ RolloutState.FAILED) →
      deployLoopGo probe 0 0 = deployLoopGo probe k (10 * k) := by
  intro k
  induction k with
  | zero => intro _ _; norm_num
  | succ n ih =>
    intro hk h
    have h1 : deployLoopGo probe 0 0 = deployLoopGo probe n (10 * n) :=
      ih (by omega) (fun j hj => h j (by omega))
    have hg : 10 * n < 600 := by omega
    have hn := h n (by omega)
    have e : 10 * n + 10 = 10 * (n + 1) := by ring
    rw [h1, deployLoopGo]
    simp [hg, hn.1, hn.2, e]

theorem deployLoop_timeout (probe : Nat → DeploymentStatus)
    (h : ∀ j, j < 60 → deploymentConverged (probe j) = false ∧
        (probe j).rolloutState ≠ RolloutState.FAILED) :
    deployLoop probe = ⟨DeployOutcome.timeout, 60, 60, 0, 600⟩ := by
  have h1 := deployLoopGo_skip probe 60 (by omega) h
  rw [deployLoop, h1, deployLoopGo]
  norm_num

theorem deployLoop_complete_at (probe : Nat → DeploymentStatus) (k : Nat)
    (hk : k < 60)
    (h : ∀ j, j < k → deploymentConverged (probe j) = false ∧
        (probe j).rolloutState ≠ RolloutState.FAILED)
    (hc : deploymentConverged (probe k) = true) :
    deployLoop probe =
      ⟨DeployOutcome.complete, k + 1, k + 1, 1, 10 * k + 10⟩ := by
  have h1 := deployLoopGo_skip probe k (by omega) h
  have hg : 10 * k < 600 := by omega
  rw [deployLoop, h1, deployLoopGo]
  simp [hg, hc]

theorem deployLoop_failed_at (probe : Nat → DeploymentStatus) (k : Nat)
    (hk : k < 60)
    (h : ∀ j, j < k → deploymentConverged (probe j) = false ∧
        (probe j).rolloutState ≠ RolloutState.FAILED)
    (hc : deploymentConverged (probe k) = false)
    (hf : (probe k).rolloutState = RolloutState.FAILED) :
    deployLoop probe = ⟨DeployOutcome.failed, k + 1, k, 0, 10 * k⟩ := by
  have h1 := deployLoopGo_skip probe k (by omega) h
  have hg : 10 * k < 600 := by omega
  rw [deployLoop, h1, deployLoopGo]
  simp [hg, hc, hf]

theorem deployLoopGo_probes_le (probe : Nat → DeploymentStatus) :
    ∀ n k, k + n = 60 → (deployLoopGo probe k (10 * k)).probes ≤ 60 := by
  intro n
  induction n with
  | zero =>
    intro k hk
    have hk60 : k = 60 := by omega
    subst hk60
    rw [deployLoopGo]
    norm_num
  | succ n ih =>
    intro k hk
    have hg : 10 * k < 600 := by omega
    rw [deployLoopGo]
    by_cases hc : deploymentConverged (probe k) = true
    · simp [hg, hc]
      omega
    · by_cases hf : (probe k).rolloutState = RolloutState.FAILED
      · simp [hg, hc, hf]
        omega
      · have e : 10 * k + 10 = 10 * (k + 1) := by ring
        simp [hg, hc, hf, e]
        exact ih (k + 1) (by omega)

theorem deployLoop_probes_le (probe : Nat → DeploymentStatus) :
    (deployLoop probe).probes ≤ 60 := by
  have h := deployLoopGo_probes_le probe 60 0 (by omega)
  simpa [deployLoop] using h

theorem runPipeline_health (buildPolls : List BuildStatus)
    (probe : Nat → DeploymentStatus) (healthOutput : Option String)
    (hb : (buildLoop buildPolls).outcome = BuildOutcome.succeeded)
    (hd : (deployLoop probe).outcome ≠ DeployOutcome.failed) :
    runPipeline buildPolls probe healthOutput =
      some ⟨0, (buildLoop buildPolls).probes, none, false, true,
        (deployLoop probe).probes,
        (deployLoop probe).outcome == DeployOutcome.timeout, true, 30, 1,
        some "http://dev-deepseek-ocr-gpu-lb-1737323494.us-east-1.elb.amazonaws.com/health",
        none, healthCheckValue healthOutput != "healthy"⟩ := by
  cases houtcome : (deployLoop probe).outcome with
  | failed => exact absurd houtcome hd
  | complete => simp [runPipeline, hb, houtcome]
  | timeout => simp [runPipeline, hb, houtcome]

/-! Claim theorems. -/

/-- Claim C1: the deployment poll loop treats a `DeploymentStatus` as
converged if and only if `rolloutState = COMPLETED`, `runningCount =
desiredCount` and `desiredCount > 0`; `{running=2, desired=2,
rolloutState=COMPLETED}` is convergent, `{running=0, desired=0,
rolloutState=COMPLETED}` is not; and the loop ends the wait successfully on a
constant status stream exactly when that status is convergent. -/
theorem c1_convergence_invariant :
    (∀ s : DeploymentStatus, deploymentConverged s = true ↔
       (s.rolloutState = RolloutState.COMPLETED ∧
        s.runningCount = s.desiredCount ∧ 0 < s.desiredCount)) ∧
    deploymentConverged ⟨2, 2, RolloutState.COMPLETED⟩ = true ∧
    deploymentConverged ⟨0, 0, RolloutState.COMPLETED⟩ = false ∧
    (∀ s : DeploymentStatus,
       (deployLoop (fun _ => s)).outcome = DeployOutcome.complete ↔
         deploymentConverged s = true) := by
  refine ⟨?_, by decide, by decide, ?_⟩
  · intro s
    simp [deploymentConverged, Nat.pos_iff_ne_zero, and_assoc]
  · intro s
    rcases Bool.eq_false_or_eq_true (deploymentConverged s) with hc | hc
    · rw [deployLoop_complete_at (fun _ => s) 0 (by omega)
        (fun j hj => absurd hj (Nat.not_lt_zero j)) hc]
      simp [hc]
    · rcases eq_or_ne s.rolloutState RolloutState.FAILED with hf | hf
      · rw [deployLoop_failed_at (fun _ => s) 0 (by omega)
          (fun j hj => absurd hj (Nat.not_lt_zero j)) hc hf]
        simp [hc]
      · rw [deployLoop_timeout (fun _ => s) (fun j _ => ⟨hc, hf⟩)]
        simp [hc]

/-- Witness for C1 at the concrete status `{running=2, desired=2,
rolloutState=COMPLETED}`. -/
theorem c1_convergence_invariant_witness :
    deploymentConverged ⟨2, 2, RolloutState.COMPLETED⟩ = true :=
  c1_convergence_invariant.2.1

/-- Claim C2: when the first terminal build status observed is a terminal
failure (`FAILED`, `FAULT`, `TIMED_OUT` or `STOPPED`), the pipeline exits 1,
prints the failing status and the build-log reference, never runs
`aws ecs update-service`, performs no deployment probe and no health
check. -/
theorem c2_build_failure_halts (pre : List BuildStatus) (s : BuildStatus)
    (rest : List BuildStatus) (deployProbe : Nat → DeploymentStatus)
    (healthOutput : Option String)
    (hpre : ∀ t ∈ pre, t ≠ BuildStatus.SUCCEEDED ∧ isTerminalFailure t = false)
    (hs : isTerminalFailure s = true) :
    runPipeline (pre ++ s :: rest) deployProbe healthOutput =
      some ⟨1, pre.length + 1, some s, true, false, 0, false, false, 0, 0,
        none, none, false⟩ := by
  have hb := buildLoop_failure_at pre s rest hpre hs
  simp [runPipeline, hb]

/-- Witness for C2: `IN_PROGRESS` then `FAILED` halts with exit code 1 and no
deployment activity. -/
theorem c2_build_failure_halts_witness :
    runPipeline [BuildStatus.IN_PROGRESS, BuildStatus.FAILED]
        (fun _ => ⟨0, 1, RolloutState.IN_PROGRESS⟩) none =
      some ⟨1, 2, some BuildStatus.FAILED, true, false, 0, false, false, 0, 0,
        none, none, false⟩ :=
  c2_build_failure_halts [BuildStatus.IN_PROGRESS] BuildStatus.FAILED []
    (fun _ => ⟨0, 1, RolloutState.IN_PROGRESS⟩) none (by decide) (by decide)

/-- Claim C3: when the deployment poll stage exhausts the 600-second
`MAX_WAIT_TIME` at 10-second intervals with neither convergence nor
`ROLLOUT_STATE = FAILED`, the run is not fatal: the timeout warning is
printed, the health check still runs, and the exit code is 0. -/
theorem c3_deploy_timeout_soft (buildPolls : List BuildStatus)
    (probe : Nat → DeploymentStatus) (healthOutput : Option String)
    (hb : (buildLoop buildPolls).outcome = BuildOutcome.succeeded)
    (hd : ∀ j, j < 60 → deploymentConverged (probe j) = false ∧
        (probe j).rolloutState ≠ RolloutState.FAILED) :
    runPipeline buildPolls probe healthOutput =
      some ⟨0, (buildLoop buildPolls).probes, none, false, true, 60, true,
        true, 30, 1,
        some "http://dev-deepseek-ocr-gpu-lb-1737323494.us-east-1.elb.amazonaws.com/health",
        none, healthCheckValue healthOutput != "healthy"⟩ := by
  have hdt := deployLoop_timeout probe hd
  simp [runPipeline, hb, hdt]

/-- Witness for C3: a build that succeeds at once followed by a rollout that
stays `IN_PROGRESS` for the whole wait ends with warning, health check and
exit code 0. -/
theorem c3_deploy_timeout_soft_witness :
    runPipeline [BuildStatus.SUCCEEDED]
        (fun _ => ⟨0, 1, RolloutState.IN_PROGRESS⟩) none =
      some ⟨0, 1, none, false, true, 60, true, true, 30, 1,
        some "http://dev-deepseek-ocr-gpu-lb-1737323494.us-east-1.elb.amazonaws.com/health",
        none, true⟩ :=
  c3_deploy_timeout_soft [BuildStatus.SUCCEEDED]
    (fun _ => ⟨0, 1, RolloutState.IN_PROGRESS⟩) none (by decide) (by decide)

/-- Claim C4: the deployment poll loop always performs at most
`600 / 10 = 60` probes, and on a probe stream with no terminal verdict it
terminates with the timeout outcome after exactly 60 probes with
`ELAPSED_TIME = 600`, the configured `MAX_WAIT_TIME`. -/
theorem c4_deploy_loop_bounded (probe : Nat → DeploymentStatus) :
    (deployLoop probe).probes ≤ 60 ∧
    ((∀ j, j < 60 → deploymentConverged (probe j) = false ∧
         (probe j).rolloutState ≠ RolloutState.FAILED) →
      (deployLoop probe).outcome = DeployOutcome.timeout ∧
      (deployLoop probe).probes = 60 ∧
      (deployLoop probe).elapsed = 600) := by
  refine ⟨deployLoop_probes_le probe, ?_⟩
  intro hd
  simp [deployLoop_timeout probe hd]

/-- Witness for C4 on the constant `IN_PROGRESS` stream. -/
theorem c4_deploy_loop_bounded_witness :
    (deployLoop (fun _ => ⟨0, 1, RolloutState.IN_PROGRESS⟩)).outcome =
        DeployOutcome.timeout ∧
    (deployLoop (fun _ => ⟨0, 1, RolloutState.IN_PROGRESS⟩)).probes = 60 ∧
    (deployLoop (fun _ => ⟨0, 1, RolloutState.IN_PROGRESS⟩)).elapsed = 600 :=
  (c4_deploy_loop_bounded (fun _ => ⟨0, 1, RolloutState.IN_PROGRESS⟩)).2
    (by decide)

/-- Claim C5 counterexample: on a rollout that converges at the very first
probe, the deployment loop still executes one `sleep 10` after the
convergence verdict (deploy-ocr-update.sh line 125 runs after line 118 set
`DEPLOYMENT_COMPLETE=true`), so "no further sleep ... occurs" is false. -/
theorem c5_no_event_after_verdict_cex :
    (deployLoop (fun _ => ⟨2, 2, RolloutState.COMPLETED⟩)).outcome =
        DeployOutcome.complete ∧
    (deployLoop (fun _ => ⟨2, 2, RolloutState.COMPLETED⟩)).sleepsAfterVerdict
        = 1 ∧
    ¬ (deployLoop (fun _ => ⟨2, 2, RolloutState.COMPLETED⟩)).sleepsAfterVerdict
        = 0 := by
  have h := deployLoop_complete_at (fun _ => ⟨2, 2, RolloutState.COMPLETED⟩)
    0 (by omega) (fun j hj => absurd hj (Nat.not_lt_zero j)) (by decide)
  simp [h]

/-- Claim C5 amended: once a tick's probe returns a terminal value no further
probe occurs; the build loop also performs no further sleep (it breaks or
exits before its `sleep 10`), and the deployment loop performs no further
sleep on `ROLLOUT_STATE = FAILED`, but on convergence it performs exactly one
further `sleep 10` before the stage returns. -/
theorem c5_amended_terminal_behaviour :
    (∀ (pre : List BuildStatus) (s : BuildStatus) (rest : List BuildStatus),
       (∀ t ∈ pre, t ≠ BuildStatus.SUCCEEDED ∧ isTerminalFailure t = false) →
       (s = BuildStatus.SUCCEEDED ∨ isTerminalFailure s = true) →
       (buildLoop (pre ++ s :: rest)).probes = pre.length + 1 ∧
       (buildLoop (pre ++ s :: rest)).sleeps = pre.length) ∧
    (∀ (probe : Nat → DeploymentStatus) (k : Nat), k < 60 →
       (∀ j, j < k → deploymentConverged (probe j) = false ∧
           (probe j).rolloutState ≠ RolloutState.FAILED) →
       (deploymentConverged (probe k) = true →
          deployLoop probe =
            ⟨DeployOutcome.complete, k + 1, k + 1, 1, 10 * k + 10⟩) ∧
       (deploymentConverged (probe k) = false →
          (probe k).rolloutState = RolloutState.FAILED →
          deployLoop probe = ⟨DeployOutcome.failed, k + 1, k, 0, 10 * k⟩)) := by
  constructor
  · intro pre s rest hpre hs
    rcases hs with hs | hs
    · subst hs
      simp [buildLoop_succeeded_at pre rest hpre]
    · simp [buildLoop_failure_at pre s rest hpre hs]
  · intro probe k hk h
    exact ⟨deployLoop_complete_at probe k hk h,
      fun hc hf => deployLoop_failed_at probe k hk h hc hf⟩

/-- Witness for the amended C5: build loop `[IN_PROGRESS, SUCCEEDED]` probes
twice and sleeps once; a rollout converging at the first probe yields the
complete trace with one post-verdict sleep. -/
theorem c5_amended_terminal_behaviour_witness :
    ((buildLoop [BuildStatus.IN_PROGRESS, BuildStatus.SUCCEEDED]).probes = 2 ∧
     (buildLoop [BuildStatus.IN_PROGRESS, BuildStatus.SUCCEEDED]).sleeps = 1) ∧
    deployLoop (fun _ => ⟨2, 2, RolloutState.COMPLETED⟩) =
      ⟨DeployOutcome.complete, 1, 1, 1, 10⟩ :=
  ⟨c5_amended_terminal_behaviour.1 [BuildStatus.IN_PROGRESS]
      BuildStatus.SUCCEEDED [] (by decide) (Or.inl rfl),
   (c5_amended_terminal_behaviour.2 (fun _ => ⟨2, 2, RolloutState.COMPLETED⟩)
      0 (by omega) (fun j hj => absurd hj (Nat.not_lt_zero j))).1 (by decide)⟩

/-- Claim C6: a degraded health check never fails the pipeline.  A failing
`curl | jq` pipeline (transport error or unparsable body) collapses to the
value `"failed"`, and for every health value other than `"healthy"` —
provided the build succeeded and the rollout did not report
`ROLLOUT_STATE = FAILED` — only the warning is printed and the exit code
stays 0. -/
theorem c6_health_degraded_soft (buildPolls : List BuildStatus)
    (probe : Nat → DeploymentStatus) (healthOutput : Option String)
    (hb : (buildLoop buildPolls).outcome = BuildOutcome.succeeded)
    (hd : (deployLoop probe).outcome ≠ DeployOutcome.failed)
    (hh : healthCheckValue healthOutput ≠ "healthy") :
    healthCheckValue none = "failed" ∧
    runPipeline buildPolls probe healthOutput =
      some ⟨0, (buildLoop buildPolls).probes, none, false, true,
        (deployLoop probe).probes,
        (deployLoop probe).outcome == DeployOutcome.timeout, true, 30, 1,
        some "http://dev-deepseek-ocr-gpu-lb-1737323494.us-east-1.elb.amazonaws.com/health",
        none, true⟩ := by
  refine ⟨rfl, ?_⟩
  rw [runPipeline_health buildPolls probe healthOutput hb hd]
  simp [bne_iff_ne, hh]

/-- Witness for C6: failed `curl | jq` after a converged rollout yields a
warning and exit code 0. -/
theorem c6_health_degraded_soft_witness :
    healthCheckValue none = "failed" ∧
    runPipeline [BuildStatus.SUCCEEDED]
        (fun _ => ⟨2, 2, RolloutState.COMPLETED⟩) none =
      some ⟨0, (buildLoop [BuildStatus.SUCCEEDED]).probes, none, false, true,
        (deployLoop (fun _ => ⟨2, 2, RolloutState.COMPLETED⟩)).probes,
        (deployLoop (fun _ => ⟨2, 2, RolloutState.COMPLETED⟩)).outcome ==
          DeployOutcome.timeout, true, 30, 1,
        some "http://dev-deepseek-ocr-gpu-lb-1737323494.us-east-1.elb.amazonaws.com/health",
        none, true⟩ :=
  c6_health_degraded_soft [BuildStatus.SUCCEEDED]
    (fun _ => ⟨2, 2, RolloutState.COMPLETED⟩) none (by decide)
    (by simp [deployLoop, deployLoopGo, deploymentConverged]) (by decide)

/-- Claim C7 counterexample: the script's health probe (`curl -s
$LOAD_BALANCER_URL/health`, line 140) is issued with no request-timeout
option, so on a run that reaches the health stage the recorded request
timeout is `none`, not the claimed 10 seconds. -/
theorem c7_no_request_timeout_cex :
    (runPipeline [BuildStatus.SUCCEEDED]
        (fun _ => ⟨2, 2, RolloutState.COMPLETED⟩) (some "healthy")).map
        PipelineTrace.healthRequestTimeout = some none ∧
    ¬ (runPipeline [BuildStatus.SUCCEEDED]
        (fun _ => ⟨2, 2, RolloutState.COMPLETED⟩) (some "healthy")).map
        PipelineTrace.healthRequestTimeout = some (some 10) := by
  have h := runPipeline_health [BuildStatus.SUCCEEDED]
    (fun _ => ⟨2, 2, RolloutState.COMPLETED⟩) (some "healthy") (by decide)
    (by simp [deployLoop, deployLoopGo, deploymentConverged])
  simp [h]

/-- Claim C7 amended: whenever the health-check stage runs (build succeeded
and the rollout did not report `FAILED`), it is preceded by the fixed
30-second settle delay and performs exactly one HTTP GET of the `/health`
endpoint, issued with no request timeout (the 10-second timeout exists only
in the Lambda helper `getDeepSeekHealth`, not in the deploy script's
probe). -/
theorem c7_amended_health_probe (buildPolls : List BuildStatus)
    (probe : Nat → DeploymentStatus) (healthOutput : Option String)
    (hb : (buildLoop buildPolls).outcome = BuildOutcome.succeeded)
    (hd : (deployLoop probe).outcome ≠ DeployOutcome.failed) :
    runPipeline buildPolls probe healthOutput =
      some ⟨0, (buildLoop buildPolls).probes, none, false, true,
        (deployLoop probe).probes,
        (deployLoop probe).outcome == DeployOutcome.timeout, true, 30, 1,
        some "http://dev-deepseek-ocr-gpu-lb-1737323494.us-east-1.elb.amazonaws.com/health",
        none, healthCheckValue healthOutput != "healthy"⟩ :=
  runPipeline_health buildPolls probe healthOutput hb hd

/-- Witness for the amended C7 at a converged one-probe rollout. -/
theorem c7_amended_health_probe_witness :
    runPipeline [BuildStatus.SUCCEEDED]
        (fun _ => ⟨2, 2, RolloutState.COMPLETED⟩) (some "healthy") =
      some ⟨0, (buildLoop [BuildStatus.SUCCEEDED]).probes, none, false, true,
        (deployLoop (fun _ => ⟨2, 2, RolloutState.COMPLETED⟩)).probes,
        (deployLoop (fun _ => ⟨2, 2, RolloutState.COMPLETED⟩)).outcome ==
          DeployOutcome.timeout, true, 30, 1,
        some "http://dev-deepseek-ocr-gpu-lb-1737323494.us-east-1.elb.amazonaws.com/health",
        none, healthCheckValue (some "healthy") != "healthy"⟩ :=
  c7_amended_health_probe [BuildStatus.SUCCEEDED]
    (fun _ => ⟨2, 2, RolloutState.COMPLETED⟩) (some "healthy") (by decide)
    (by simp [deployLoop, deployLoopGo, deploymentConverged])

/-- Claim C8 counterexample: with every environment variable unset,
configuration resolution still succeeds with the fallback and hardcoded
values — a missing environment value is never fatal — and the source bucket
(like the project, key, cluster, service and load-balancer URL) is a
hardcoded constant, identical under any environment rather than resolved
from it. -/
theorem c8_config_never_fatal_cex :
    resolveConfig ⟨none, none, none⟩ =
      ⟨"deepseek-ocr-docker-build", "us-east-1", "098305555551",
       "miketran+SA", "dev-deepseek-ocr-files-bucket",
       "codebuild-source/docker-source.zip", "dev-deepseek-ocr-gpu-cluster",
       "dev-deepseek-ocr-gpu-service",
       "http://dev-deepseek-ocr-gpu-lb-1737323494.us-east-1.elb.amazonaws.com"⟩ ∧
    (resolveConfig ⟨some "eu-west-1", some "123", some "other"⟩).S3_BUCKET =
      (resolveConfig ⟨none, none, none⟩).S3_BUCKET := by
  exact ⟨rfl, rfl⟩

/-- Claim C8 amended: only `AWS_REGION`, `AWS_ACCOUNT_ID` and `AWS_PROFILE`
are resolved from environment variables, each with a `${VAR:-default}`
fallback; the project name, bucket, key, cluster, service and load-balancer
URL are hardcoded string constants; no environment value is required, and
configuration resolution is total — it never aborts the script. -/
theorem c8_amended_config (e : ScriptEnv) :
    (resolveConfig e).AWS_REGION = shellDefault e.AWS_REGION "us-east-1" ∧
    (resolveConfig e).AWS_ACCOUNT_ID =
      shellDefault e.AWS_ACCOUNT_ID "098305555551" ∧
    (resolveConfig e).AWS_PROFILE = shellDefault e.AWS_PROFILE "miketran+SA" ∧
    (resolveConfig e).PROJECT_NAME = "deepseek-ocr-docker-build" ∧
    (resolveConfig e).S3_BUCKET = "dev-deepseek-ocr-files-bucket" ∧
    (resolveConfig e).S3_KEY = "codebuild-source/docker-source.zip" ∧
    (resolveConfig e).ECS_CLUSTER = "dev-deepseek-ocr-gpu-cluster" ∧
    (resolveConfig e).ECS_SERVICE = "dev-deepseek-ocr-gpu-service" ∧
    (resolveConfig e).LOAD_BALANCER_URL =
      "http://dev-deepseek-ocr-gpu-lb-1737323494.us-east-1.elb.amazonaws.com" :=
  ⟨rfl, rfl, rfl, rfl, rfl, rfl, rfl, rfl, rfl⟩

/-- Witness for the amended C8 at the empty environment. -/
theorem c8_amended_config_witness :
    (resolveConfig ⟨none, none, none⟩).AWS_REGION =
      shellDefault none "us-east-1" ∧
    (resolveConfig ⟨none, none, none⟩).AWS_ACCOUNT_ID =
      shellDefault none "098305555551" ∧
    (resolveConfig ⟨none, none, none⟩).AWS_PROFILE =
      shellDefault none "miketran+SA" ∧
    (resolveConfig ⟨none, none, none⟩).PROJECT_NAME =
      "deepseek-ocr-docker-build" ∧
    (resolveConfig ⟨none, none, none⟩).S3_BUCKET =
      "dev-deepseek-ocr-files-bucket" ∧
    (resolveConfig ⟨none, none, none⟩).S3_KEY =
      "codebuild-source/docker-source.zip" ∧
    (resolveConfig ⟨none, none, none⟩).ECS_CLUSTER =
      "dev-deepseek-ocr-gpu-cluster" ∧
    (resolveConfig ⟨none, none, none⟩).ECS_SERVICE =
      "dev-deepseek-ocr-gpu-service" ∧
    (resolveConfig ⟨none, none, none⟩).LOAD_BALANCER_URL =
      "http://dev-deepseek-ocr-gpu-lb-1737323494.us-east-1.elb.amazonaws.com" :=
  c8_amended_config ⟨none, none, none⟩

theorem reverse_dropWhile_reverse_eq_take (p : Char → Bool) (l : List Char) :
    (l.reverse.dropWhile p).reverse =
      l.take (l.length - (l.reverse.takeWhile p).length) := by
  have hsplit := List.takeWhile_append_dropWhile p l.reverse
  have hl : (l.reverse.dropWhile p).reverse ++
      (l.reverse.takeWhile p).reverse = l := by
    rw [← List.reverse_append, hsplit, List.reverse_reverse]
  have hlen : (l.reverse.dropWhile p).reverse.length =
      l.length - (l.reverse.takeWhile p).length := by
    have h2 := congrArg List.length hl
    simp only [List.length_append, List.length_reverse] at h2 ⊢
    omega
  calc (l.reverse.dropWhile p).reverse
      = ((l.reverse.dropWhile p).reverse ++
          (l.reverse.takeWhile p).reverse).take
          (l.length - (l.reverse.takeWhile p).length) :=
        (List.take_left' hlen).symm
    _ = l.take (l.length - (l.reverse.takeWhile p).length) := by rw [hl]

/-- Claim C9: `getBaseUrl` errors when `ALB_URL` is unset or empty, and
otherwise returns the value with all trailing slashes stripped, prefixed with
`http://` exactly when the value does not already start with `http://` or
`https://`.  `specStripTrailing` here is the spec-side strip (keep all but
the trailing-slash run); the implementation strips by
reverse-dropWhile-reverse. -/
theorem c9_getBaseUrl (s : String) (hs : s ≠ "") :
    getBaseUrl none = Except.error "ALB_URL environment variable is not set" ∧
    getBaseUrl (some "") =
      Except.error "ALB_URL environment variable is not set" ∧
    getBaseUrl (some s) =
      Except.ok
        (if strStartsWith "http://" s || strStartsWith "https://" s then
           specStripTrailing s
         else "http://" ++ specStripTrailing s) := by
  have hd : dropTrailingSlashes s = specStripTrailing s := by
    simp only [dropTrailingSlashes, specStripTrailing,
      reverse_dropWhile_reverse_eq_take]
  refine ⟨rfl, rfl, ?_⟩
  simp only [getBaseUrl]
  rw [if_neg hs]
  split_ifs with hpre
  · rw [hd]
  · rw [hd]

/-- Witness for C9: a schemeless value with trailing slashes gains the
`http://` prefix and loses the slashes. -/
theorem c9_getBaseUrl_witness :
    getBaseUrl (some "example.com///") = Except.ok "http://example.com" :=
  ((c9_getBaseUrl "example.com///" (by decide)).2.2).trans rfl

theorem filter_fileParts (files : List BatchFile) :
    (files.map fun f =>
        FormPart.file "files" f.buffer f.filename f.contentType).filter
        (fun q => q.fieldName == "files") =
      files.map fun f =>
        FormPart.file "files" f.buffer f.filename f.contentType := by
  induction files with
  | nil => rfl
  | cons f fs ih => simp [List.filter, FormPart.fieldName, ih]

theorem filter_textPartOfOption (field : String) (v : Option String)
    (hf : (field == "files") = false) :
    (textPartOfOption field v).filter (fun q => q.fieldName == "files") =
      [] := by
  cases v <;> simp [textPartOfOption, FormPart.fieldName, List.filter, hf]

/-- Claim C10: `processBatch` on an empty files list throws
`No files provided for batch processing` before reading the configuration
(the error is produced even when `ALB_URL` is unset, since the length check
precedes `getBaseUrl()`) and before building any request; on any non-empty
files list that yields a request, the parts appended under the field name
`files` are exactly the input files, in order. -/
theorem c10_processBatch :
    (∀ (albUrl : Option String) (prompt : String) (grounded : Bool)
       (t p m : Option String),
       processBatch [] albUrl prompt grounded t p m =
         Except.error "No files provided for batch processing") ∧
    (∀ (files : List BatchFile) (albUrl : Option String) (prompt : String)
       (grounded : Bool) (t p m : Option String) (req : BatchRequest),
       processBatch files albUrl prompt grounded t p m = Except.ok req →
       req.parts.filter (fun q => q.fieldName == "files") =
         files.map fun f =>
           FormPart.file "files" f.buffer f.filename f.contentType) := by
  constructor
  · intro albUrl prompt grounded t p m
    rfl
  · intro files albUrl prompt grounded t p m req h
    simp only [processBatch] at h
    by_cases hlen : files.length = 0
    · rw [if_pos hlen] at h
      cases h
    · rw [if_neg hlen] at h
      cases hbase : getBaseUrl albUrl with
      | error e =>
        rw [hbase] at h
        cases h
      | ok b =>
        rw [hbase] at h
        injection h with h2
        subst h2
        simp only [List.filter_append, filter_fileParts,
          filter_textPartOfOption "temperature" t (by decide),
          filter_textPartOfOption "top_p" p (by decide),
          filter_textPartOfOption "max_tokens" m (by decide)]
        simp [List.filter, FormPart.fieldName]

/-- Witness for C10: one file yields exactly one `files` part. -/
theorem c10_processBatch_witness :
    (BatchRequest.parts
        ⟨"http://h/ocr/batch",
         [FormPart.file "files" [0] "a.jpg" "image/jpeg",
          FormPart.text "prompt" "<image>"]⟩).filter
        (fun q => q.fieldName == "files") =
      ([⟨[0], "a.jpg", "image/jpeg"⟩] : List BatchFile).map fun f =>
        FormPart.file "files" f.buffer f.filename f.contentType :=
  c10_processBatch.2 [⟨[0], "a.jpg", "image/jpeg"⟩] (some "h") "<image>"
    false none none none
    ⟨"http://h/ocr/batch",
     [FormPart.file "files" [0] "a.jpg" "image/jpeg",
      FormPart.text "prompt" "<image>"]⟩ rfl

end DeepseekOcr
